import Mathlib

/-!
Verification of the real-time audio relay core of the
agentspeak-elevenlabs-discord-voice repository.

Shallow embedding notes:
- Byte strings are modelled as `List Nat` (one entry per byte).
- `struct.unpack` requires a buffer of exactly the format size and raises
  `struct.error` otherwise; this fallibility is modelled with `Except Unit`.
- Python `int(x)` on a float truncates toward zero, so the interpolation
  `int(a + (b - a) / 2)` is `Int.tdiv (a + b) 2` (T-division); Python `//`
  floors, so the stereo average `(l + r) // 2` is `Int.fdiv (l + r) 2`.
- Stateful objects (`AudioBuffer`, `GeminiAudioSource`,
  `DiscordAudioInterface`, `VoiceBot`, `ElevenLabsWebSocketClient`) are
  modelled as state-passing functions over structures that carry exactly the
  fields the relevant methods touch.
-/

namespace AgentSpeak

/-- Frame size in bytes: 20 ms of audio at 48 kHz, stereo, 16-bit
(960 samples * 2 channels * 2 bytes), from `GeminiAudioSource.FRAME_SIZE`. -/
def FRAME_SIZE : Nat := 3840

/-! ## Format converter (`src/audio/discord_audio_interface.py`) -/

/-- Interpretation of a 16-bit unsigned value as a signed sample, as done by
`struct.unpack("<..h", ...)`. -/
def toSigned16 (u : Nat) : Int :=
  if u < 32768 then (u : Int) else (u : Int) - 65536

/-- Decode consecutive little-endian byte pairs into signed 16-bit samples. -/
def decodeSamples : List Nat → List Int
  | lo :: hi :: rest => toSigned16 (lo + 256 * hi) :: decodeSamples rest
  | _ => []

/-- Model of `struct.unpack(f"<{n}h", b)`: succeeds only when the buffer
length is exactly `2 * n` bytes, otherwise `struct.error` is raised. -/
def structUnpack16LE (n : Nat) (b : List Nat) : Except Unit (List Int) :=
  if b.length = 2 * n then Except.ok (decodeSamples b) else Except.error ()

/-- Encode one signed 16-bit sample as two little-endian bytes, as done by
`struct.pack("<..h", ...)` (two's complement). -/
def encode16LE (s : Int) : List Nat :=
  [(s % 65536).toNat % 256, (s % 65536).toNat / 256]

/-- Encode a sample list little-endian, as `struct.pack(f"<{len}h", *l)`. -/
def pack16LE : List Int → List Nat
  | [] => []
  | s :: rest => encode16LE s ++ pack16LE rest

/-- The upsampling loop of `_convert_to_discord_format`: for each adjacent
pair emit the first sample and one interpolated sample
`int(samples[i] + diff / 2)`, then emit the final sample. -/
def upsample2x : List Int → List Int
  | [] => []
  | [a] => [a]
  | a :: b :: rest => a :: Int.tdiv (a + b) 2 :: upsample2x (b :: rest)

/-- Duplicate every sample into left and right channels
(the mono-to-stereo loop of `_convert_to_discord_format`). -/
def monoToStereo : List Int → List Int
  | [] => []
  | s :: rest => s :: s :: monoToStereo rest

/-- Average interleaved stereo pairs to mono with Python floor division,
as the stereo-to-mono loop of `_convert_to_gemini_format`; a trailing
unpaired sample uses itself as the right channel. -/
def stereoToMono : List Int → List Int
  | [] => []
  | [l] => [Int.fdiv (l + l) 2]
  | l :: r :: rest => Int.fdiv (l + r) 2 :: stereoToMono rest

/-- Keep every third sample (`mono_samples[::3]`). -/
def decimate3 : List Int → List Int
  | [] => []
  | a :: rest => a :: decimate3 (rest.drop 2)
  termination_by l => l.length
  decreasing_by
    simp only [List.length_drop, List.length_cons]
    omega

/-- `DiscordAudioInterface._convert_to_discord_format`: empty input returns
empty; otherwise unpack `len // 2` 16-bit samples (raising on a size
mismatch), upsample 2x with linear interpolation, duplicate to stereo and
re-encode. -/
def convertToDiscordFormatE (audio : List Nat) : Except Unit (List Nat) :=
  if audio.length = 0 then Except.ok []
  else
    match structUnpack16LE (audio.length / 2) audio with
    | Except.error e => Except.error e
    | Except.ok samples =>
        Except.ok (pack16LE (monoToStereo (upsample2x samples)))

/-- `DiscordAudioInterface._convert_to_gemini_format`: empty input returns
empty; otherwise unpack `2 * (len // 4)` 16-bit samples (raising on a size
mismatch), average stereo pairs to mono, keep every third sample and
re-encode. -/
def convertToGeminiFormatE (audio : List Nat) : Except Unit (List Nat) :=
  if audio.length = 0 then Except.ok []
  else
    match structUnpack16LE (2 * (audio.length / 4)) audio with
    | Except.error e => Except.error e
    | Except.ok stereo =>
        Except.ok (pack16LE (decimate3 (stereoToMono stereo)))

/-- Room-to-agent conversion followed by agent-to-room conversion. -/
def roundTrip (b : List Nat) : Except Unit (List Nat) :=
  match convertToGeminiFormatE b with
  | Except.error e => Except.error e
  | Except.ok g => convertToDiscordFormatE g

/-- Modelled from the spec: the generic ratio-`k` upsampler the spec
describes ("for each adjacent sample pair insert `k-1` linearly interpolated
samples where `k` = room_rate/agent_rate", truncating integer
interpolation). The source has no such generic code path; this definition
exists only to compare the spec's claimed behaviour with the code's fixed
ratio-2 conversion. -/
def upsampleSpecK (k : Nat) : List Int → List Int
  | [] => []
  | [a] => [a]
  | a :: b :: rest =>
      (a :: (List.range (k - 1)).map
          (fun j => Int.tdiv ((k : Int) * a + ((j : Int) + 1) * (b - a)) (k : Int)))
        ++ upsampleSpecK k (b :: rest)

/-! ## Bounded audio queue (`src/audio/audio_buffer.py`) -/

/-- State of `AudioBuffer`: a `deque(maxlen=max_size)` of chunks (front =
oldest) plus the closed flag. The lock and asyncio event only coordinate
concurrent access and do not affect the sequential contents. -/
structure AudioBuffer where
  buffer : List (List Nat)
  maxSize : Nat
  closed : Bool
deriving DecidableEq, Repr

/-- `AudioBuffer.put`: no-op when closed; otherwise append, and the
`deque(maxlen=...)` discards from the front when capacity is exceeded. -/
def AudioBuffer.put (q : AudioBuffer) (d : List Nat) : AudioBuffer :=
  if q.closed then q
  else
    { q with buffer :=
        let b := q.buffer ++ [d]
        if q.maxSize < b.length then b.drop (b.length - q.maxSize) else b }

/-- `AudioBuffer.get`: pop the oldest chunk, or `none` when empty. -/
def AudioBuffer.get (q : AudioBuffer) : Option (List Nat) × AudioBuffer :=
  match q.buffer with
  | [] => (none, q)
  | c :: rest => (some c, { q with buffer := rest })

/-- `AudioBuffer.clear`: discard all contents. -/
def AudioBuffer.clear (q : AudioBuffer) : AudioBuffer :=
  { q with buffer := [] }

/-! ## Room frame source (`src/audio/discord_audio_source.py`) -/

/-- State of `GeminiAudioSource`: the carried remainder, the shared output
buffer it reads from, and the playing flag. -/
structure GeminiAudioSource where
  remainingData : List Nat
  buffer : AudioBuffer
  isPlaying : Bool
deriving DecidableEq, Repr

/-- The accumulation loop of `GeminiAudioSource.read`: while the buffered
data is shorter than `FRAME_SIZE`, pop chunks from the queue and append
them, stopping when the queue is exhausted. -/
def drain (data : List Nat) : List (List Nat) → List Nat × List (List Nat)
  | [] => (data, [])
  | c :: rest =>
      if data.length < FRAME_SIZE then drain (data ++ c) rest
      else (data, c :: rest)

/-- `GeminiAudioSource.read`: returns `b""` when not playing; otherwise
drains the queue into the carried remainder and either emits a full silence
frame (no data), slices exactly one frame carrying the excess, or pads the
short data with trailing zeros and clears the remainder. -/
def GeminiAudioSource.read (s : GeminiAudioSource) : List Nat × GeminiAudioSource :=
  if s.isPlaying = false then ([], s)
  else
    let p := drain s.remainingData s.buffer.buffer
    let buf : AudioBuffer := { s.buffer with buffer := p.2 }
    if p.1.length = 0 then
      (List.replicate FRAME_SIZE 0, { s with buffer := buf })
    else if FRAME_SIZE ≤ p.1.length then
      (p.1.take FRAME_SIZE,
       { s with remainingData := p.1.drop FRAME_SIZE, buffer := buf })
    else
      (p.1 ++ List.replicate (FRAME_SIZE - p.1.length) 0,
       { s with remainingData := [], buffer := buf })

/-! ## Audio bridge (`src/audio/discord_audio_interface.py`) -/

/-- State of `DiscordAudioInterface`: whether an input callback is
registered, the two bounded queues, and the running flag. -/
structure DiscordAudioInterface where
  inputCallbackSet : Bool
  outputBuffer : AudioBuffer
  inputBuffer : AudioBuffer
  isRunning : Bool
deriving DecidableEq, Repr

/-- `DiscordAudioInterface.interrupt`: clears the output buffer and touches
nothing else. -/
def DiscordAudioInterface.interrupt (i : DiscordAudioInterface) : DiscordAudioInterface :=
  { i with outputBuffer := i.outputBuffer.clear }

/-! ## Session manager (`src/bot/voice_bot.py`)

`VoiceBot` keeps three process-wide containers: `_voice_connections`
(guild id to voice client, whose channel we record), `_active_conversations`
(guild id to agent) and the single `_greeted_users : Set[int]` keyed by
member id only. Dictionaries are modelled as association lists and the set
as a duplicate-free-by-construction list. -/

structure BotState where
  voiceConnections : List (Nat × Nat)
  activeConversations : List Nat
  greetedUsers : List Nat
  greetingEnabled : Bool
deriving DecidableEq, Repr

/-- Channel of the guild's registered voice connection, when present
(`guild_id in self._voice_connections` plus `vc.channel`). -/
def lookupConn (s : BotState) (g : Nat) : Option Nat :=
  match s.voiceConnections.find? (fun p => p.1 == g) with
  | some p => some p.2
  | none => none

/-- `VoiceBot._greet_user`: no-op when the guild has no active conversation;
otherwise sends the greeting text and adds the member to the greeted set.
The returned `Bool` records whether a greeting was sent. -/
def greetUser (s : BotState) (g member : Nat) : BotState × Bool :=
  if s.activeConversations.contains g then
    ({ s with greetedUsers :=
        if s.greetedUsers.contains member then s.greetedUsers
        else s.greetedUsers ++ [member] }, true)
  else (s, false)

/-- The success path of `VoiceBot._join_voice_channel`: register the voice
connection and the started agent for the guild. A connection failure raises
and registers nothing; only the success path is modelled, since the claims
concern the already-connected branch. -/
def joinVoiceChannel (s : BotState) (g ch : Nat) : BotState :=
  { s with
    voiceConnections := (g, ch) :: s.voiceConnections.filter (fun p => p.1 != g),
    activeConversations :=
      if s.activeConversations.contains g then s.activeConversations
      else s.activeConversations ++ [g] }

/-- `VoiceBot._handle_user_join`: when already connected to the same channel
of that guild, only greet (if enabled and the member is not yet in the
greeted set) and return; otherwise join the channel and greet whenever
greeting is enabled. The returned `Bool` records whether a greeting was
sent. -/
def handleUserJoin (s : BotState) (member ch g : Nat) : BotState × Bool :=
  match lookupConn s g with
  | some ch0 =>
      if ch0 = ch then
        if s.greetingEnabled && !(s.greetedUsers.contains member) then
          greetUser s g member
        else (s, false)
      else
        let s1 := joinVoiceChannel s g ch
        if s1.greetingEnabled then greetUser s1 g member else (s1, false)
  | none =>
      let s1 := joinVoiceChannel s g ch
      if s1.greetingEnabled then greetUser s1 g member else (s1, false)

/-- `VoiceBot._leave_voice_channel`: pop the guild's conversation and voice
connection; the greeted set is not touched here. -/
def leaveVoiceChannel (s : BotState) (g : Nat) : BotState :=
  { s with
    activeConversations := s.activeConversations.filter (fun x => x != g),
    voiceConnections := s.voiceConnections.filter (fun p => p.1 != g) }

/-- `VoiceBot._handle_user_leave`: when the channel is now empty of non-bot
members, tear the session down; then discard the leaving member from the
greeted set. -/
def handleUserLeave (s : BotState) (member g : Nat) (channelEmpty : Bool) : BotState :=
  let s1 := if channelEmpty then leaveVoiceChannel s g else s
  { s1 with greetedUsers := s1.greetedUsers.filter (fun x => x != member) }

/-! ## AI session client (`src/elevenlabs_agent/websocket_client.py`)

Only the teardown-relevant state is modelled: the connected flag, whether
the receive-loop coroutine is still live, whether the transport is open, and
a counter of `on_disconnected` callback invocations. -/

structure WSClient where
  isConnected : Bool
  receiveLoopRunning : Bool
  wsOpen : Bool
  disconnectedFires : Nat
deriving DecidableEq, Repr

/-- How the receive loop of `ElevenLabsWebSocketClient` exits: the remote
closes the socket, an unhandled exception escapes, or the task is
cancelled. -/
inductive LoopExit
  | remoteClose
  | unhandledError
  | cancelled
deriving DecidableEq, Repr

/-- The `finally` block of `_receive_loop`: set `_is_connected = False` and
fire `on_disconnected`; the coroutine then finishes. -/
def receiveLoopFinally (c : WSClient) : WSClient :=
  { c with isConnected := false, receiveLoopRunning := false,
           disconnectedFires := c.disconnectedFires + 1 }

/-- Exit of `_receive_loop`: every exit reason (remote close, unhandled
exception, cancellation) runs the same `finally` block. -/
def receiveLoopExit (r : LoopExit) (c : WSClient) : WSClient :=
  receiveLoopFinally c

/-- `ElevenLabsWebSocketClient.disconnect`: clear the connected flag; cancel
and await the receive task (a still-live loop then runs its `finally`
block); close the transport; fire `on_disconnected`. -/
def WSClient.disconnect (c : WSClient) : WSClient :=
  let c1 := { c with isConnected := false }
  let c2 := if c1.receiveLoopRunning then receiveLoopFinally c1 else c1
  let c3 := { c2 with wsOpen := false }
  { c3 with disconnectedFires := c3.disconnectedFires + 1 }

/-! ## Helper lemmas -/

theorem put_maxSize_eq (q : AudioBuffer) (d : List Nat) :
    (q.put d).maxSize = q.maxSize := by
  unfold AudioBuffer.put
  split <;> rfl

theorem put_length_le (q : AudioBuffer) (d : List Nat)
    (h : q.buffer.length ≤ q.maxSize) : (q.put d).buffer.length ≤ q.maxSize := by
  unfold AudioBuffer.put
  split
  · exact h
  · simp only
    split
    · simp only [List.length_drop]
      omega
    · simp only [List.length_append, List.length_cons, List.length_nil] at *
      omega

theorem foldl_put_length_le (chunks : List (List Nat)) :
    ∀ q : AudioBuffer, q.buffer.length ≤ q.maxSize →
      (chunks.foldl AudioBuffer.put q).buffer.length ≤ q.maxSize := by
  induction chunks with
  | nil => exact fun q h => h
  | cons c cs ih =>
      intro q h
      have h2 := put_maxSize_eq q c
      have h1 := ih (q.put c) (by rw [h2]; exact put_length_le q c h)
      rw [h2] at h1
      simpa [List.foldl_cons] using h1

/-! ## Claims -/

/-- C1: for every state of the outbound queue and carried remainder,
`GeminiAudioSource.read` while playing returns exactly `FRAME_SIZE = 3840`
bytes: an all-zero silence frame when zero bytes are buffered, an exact
`FRAME_SIZE` slice with the excess carried into the remainder when at least
`FRAME_SIZE` bytes are available, and the available bytes padded with
trailing zeros (remainder cleared) when fewer than `FRAME_SIZE` bytes are
available and the queue is exhausted. -/
theorem C1_read_always_full_frame (s : GeminiAudioSource) (h : s.isPlaying = true) :
    (s.read).1.length = FRAME_SIZE
    ∧ ((drain s.remainingData s.buffer.buffer).1 = [] →
        (s.read).1 = List.replicate FRAME_SIZE 0)
    ∧ (FRAME_SIZE ≤ (drain s.remainingData s.buffer.buffer).1.length →
        (s.read).1 = (drain s.remainingData s.buffer.buffer).1.take FRAME_SIZE
          ∧ (s.read).2.remainingData
              = (drain s.remainingData s.buffer.buffer).1.drop FRAME_SIZE)
    ∧ (0 < (drain s.remainingData s.buffer.buffer).1.length →
        (drain s.remainingData s.buffer.buffer).1.length < FRAME_SIZE →
        (s.read).1 = (drain s.remainingData s.buffer.buffer).1
            ++ List.replicate
                (FRAME_SIZE - (drain s.remainingData s.buffer.buffer).1.length) 0
          ∧ (s.read).2.remainingData = []) := by
  unfold GeminiAudioSource.read
  rw [h]
  simp only [Bool.true_eq_false, if_false]
  generalize (drain s.remainingData s.buffer.buffer) = p
  obtain ⟨data, rest⟩ := p
  dsimp only
  by_cases h0 : data.length = 0
  · rw [if_pos h0]
    refine ⟨by simp, fun _ => rfl, ?_, ?_⟩
    · intro hge
      rw [h0] at hge
      exact absurd hge (by norm_num [FRAME_SIZE])
    · intro hpos
      omega
  · rw [if_neg h0]
    by_cases hge : FRAME_SIZE ≤ data.length
    · rw [if_pos hge]
      refine ⟨by simp [List.length_take]; omega, ?_, fun _ => ⟨rfl, rfl⟩, ?_⟩
      · intro he
        rw [he] at h0
        exact absurd rfl h0
      · intro _ hlt
        omega
    · rw [if_neg hge]
      refine ⟨by simp [List.length_append]; omega, ?_, ?_, fun _ _ => ⟨rfl, rfl⟩⟩
      · intro he
        rw [he] at h0
        exact absurd rfl h0
      · intro hge'
        exact absurd hge' hge

/-- Witness for C1 at a concrete state: empty remainder and empty queue,
playing; the read returns the all-zero silence frame of full length. -/
theorem C1_read_always_full_frame_witness :
    (GeminiAudioSource.read ⟨[], ⟨[], 500, false⟩, true⟩).1.length = FRAME_SIZE
    ∧ (GeminiAudioSource.read ⟨[], ⟨[], 500, false⟩, true⟩).1
        = List.replicate FRAME_SIZE 0 :=
  ⟨(C1_read_always_full_frame ⟨[], ⟨[], 500, false⟩, true⟩ rfl).1,
   (C1_read_always_full_frame ⟨[], ⟨[], 500, false⟩, true⟩ rfl).2.1 rfl⟩

/-- C3 (code side): both conversion functions raise `struct.error` on
malformed input instead of truncating: a 3-byte (odd) input to the
agent-to-room transform and a 6-byte (non-multiple-of-4) input to the
room-to-agent transform both error, because `struct.unpack` demands a
buffer of exactly the computed size. -/
theorem C3_malformed_input_raises :
    convertToDiscordFormatE [1, 2, 3] = Except.error ()
    ∧ convertToGeminiFormatE [0, 0, 0, 0, 0, 0] = Except.error () :=
  ⟨rfl, rfl⟩

/-- C5: the length of an open bounded queue never exceeds its capacity
under any sequence of `put` operations; a `put` on a full queue evicts the
oldest chunk and preserves the order of the rest; and a capacity-2 queue
after `put a; put b; put c` holds exactly `[b, c]`. -/
theorem C5_bounded_drop_oldest (q : AudioBuffer) (chunks : List (List Nat))
    (hO : q.closed = false) (hL : q.buffer.length ≤ q.maxSize) :
    (chunks.foldl AudioBuffer.put q).buffer.length ≤ q.maxSize
    ∧ (∀ d c rest, q.buffer = c :: rest → q.buffer.length = q.maxSize →
        (q.put d).buffer = rest ++ [d])
    ∧ (List.foldl AudioBuffer.put ⟨[], 2, false⟩ [[0], [1], [2]]).buffer
        = [[1], [2]] := by
  refine ⟨foldl_put_length_le chunks q hL, ?_, by decide⟩
  intro d c rest hb hfull
  unfold AudioBuffer.put
  rw [hO]
  simp only [Bool.false_eq_true, if_false]
  rw [hb]
  have hlen : ((c :: rest) ++ [d]).length = q.maxSize + 1 := by
    simp only [List.length_append, List.length_cons, List.length_nil]
    rw [hb] at hfull
    simp only [List.length_cons] at hfull
    omega
  rw [if_pos (by omega)]
  rw [hlen]
  simp

/-- Witness for C5 at a concrete full queue of capacity 2. -/
theorem C5_bounded_drop_oldest_witness :
    (List.foldl AudioBuffer.put ⟨[[0], [1]], 2, false⟩ [[7]]).buffer.length ≤ 2
    ∧ (AudioBuffer.put ⟨[[0], [1]], 2, false⟩ [9]).buffer = [[1]] ++ [[9]]
    ∧ (List.foldl AudioBuffer.put ⟨[], 2, false⟩ [[0], [1], [2]]).buffer
        = [[1], [2]] :=
  ⟨(C5_bounded_drop_oldest ⟨[[0], [1]], 2, false⟩ [[7]] rfl (by decide)).1,
   (C5_bounded_drop_oldest ⟨[[0], [1]], 2, false⟩ [[7]] rfl (by decide)).2.1
      [9] [0] [[1]] rfl rfl,
   (C5_bounded_drop_oldest ⟨[[0], [1]], 2, false⟩ [[7]] rfl (by decide)).2.2⟩

/-- C6 counterexample: with a stale carried remainder byte `7` in the frame
source, a `read()` immediately after `interrupt()` with no intervening
`output()` does not return an all-zero silence frame — `interrupt` clears
only the queue, not the source's remainder. -/
theorem C6_counterexample :
    (GeminiAudioSource.read
        ⟨[7], (DiscordAudioInterface.interrupt
            ⟨true, ⟨[[1, 2]], 500, false⟩, ⟨[], 500, false⟩, true⟩).outputBuffer,
         true⟩).1
      ≠ List.replicate FRAME_SIZE 0 := by
  intro h
  have h7 : (GeminiAudioSource.read
      ⟨[7], (DiscordAudioInterface.interrupt
          ⟨true, ⟨[[1, 2]], 500, false⟩, ⟨[], 500, false⟩, true⟩).outputBuffer,
       true⟩).1.head? = some 7 := rfl
  rw [h] at h7
  have h0 : (List.replicate FRAME_SIZE (0 : Nat)).head? = some 0 := rfl
  rw [h0] at h7
  exact absurd h7 (by decide)

/-- C6 as amended: `interrupt()` empties the outbound queue only, leaving
the inbound buffer, the registered callback and the running flag unchanged;
a `read()` immediately after it, with no intervening `output()`, returns an
all-zero silence frame provided the frame source's carried remainder buffer
is empty. -/
theorem C6_interrupt_outbound_only (i : DiscordAudioInterface)
    (src : GeminiAudioSource) (hrem : src.remainingData = [])
    (hplay : src.isPlaying = true) :
    (i.interrupt.inputBuffer = i.inputBuffer
     ∧ i.interrupt.inputCallbackSet = i.inputCallbackSet
     ∧ i.interrupt.isRunning = i.isRunning)
    ∧ (GeminiAudioSource.read { src with buffer := i.interrupt.outputBuffer }).1
        = List.replicate FRAME_SIZE 0 := by
  refine ⟨⟨rfl, rfl, rfl⟩, ?_⟩
  unfold GeminiAudioSource.read
  simp [hplay, hrem, DiscordAudioInterface.interrupt, AudioBuffer.clear, drain]

/-- Witness for C6 as amended at a concrete running interface and a source
with empty remainder. -/
theorem C6_interrupt_outbound_only_witness :
    ((DiscordAudioInterface.interrupt
        ⟨true, ⟨[[3, 4]], 500, false⟩, ⟨[[5]], 500, false⟩, true⟩).inputBuffer
      = (⟨[[5]], 500, false⟩ : AudioBuffer))
    ∧ (GeminiAudioSource.read
        { (⟨[], ⟨[[9]], 500, false⟩, true⟩ : GeminiAudioSource) with
          buffer := (DiscordAudioInterface.interrupt
              ⟨true, ⟨[[3, 4]], 500, false⟩, ⟨[[5]], 500, false⟩, true⟩).outputBuffer }).1
        = List.replicate FRAME_SIZE 0 :=
  ⟨(C6_interrupt_outbound_only
      ⟨true, ⟨[[3, 4]], 500, false⟩, ⟨[[5]], 500, false⟩, true⟩
      ⟨[], ⟨[[9]], 500, false⟩, true⟩ rfl rfl).1.1,
   (C6_interrupt_outbound_only
      ⟨true, ⟨[[3, 4]], 500, false⟩, ⟨[[5]], 500, false⟩, true⟩
      ⟨[], ⟨[[9]], 500, false⟩, true⟩ rfl rfl).2⟩

/-- C9 counterexample: an explicit `disconnect()` on a connected client
with a live receive loop fires `on_disconnected` twice (once from the
loop's `finally`, once from `disconnect` itself), not exactly once. -/
theorem C9_counterexample :
    (WSClient.disconnect ⟨true, true, true, 0⟩).disconnectedFires = 2
    ∧ (WSClient.disconnect ⟨true, true, true, 0⟩).disconnectedFires ≠ 1 :=
  ⟨rfl, by decide⟩

/-- C9 as amended: a receive-loop exit alone (remote close, cancellation or
unhandled exception) fires `on_disconnected` exactly once; an explicit
`disconnect()` fires it twice when the receive loop is still live, and once
when the loop has already finished. -/
theorem C9_disconnect_fire_counts (c : WSClient) (r : LoopExit)
    (hrun : c.receiveLoopRunning = true) :
    (receiveLoopExit r c).disconnectedFires = c.disconnectedFires + 1
    ∧ (WSClient.disconnect c).disconnectedFires = c.disconnectedFires + 2
    ∧ (∀ c2 : WSClient, c2.receiveLoopRunning = false →
        (WSClient.disconnect c2).disconnectedFires = c2.disconnectedFires + 1) := by
  refine ⟨rfl, ?_, ?_⟩
  · unfold WSClient.disconnect receiveLoopFinally
    simp [hrun]
  · intro c2 h2
    unfold WSClient.disconnect
    simp [h2]

theorem upsample2x_eq_specK2 : ∀ l : List Int, upsample2x l = upsampleSpecK 2 l
  | [] => rfl
  | [a] => rfl
  | a :: b :: rest => by
      have ih := upsample2x_eq_specK2 (b :: rest)
      rw [upsample2x, ih]
      conv_rhs => rw [upsampleSpecK]
      simp only [show (2 : Nat) - 1 = 1 from rfl, show List.range 1 = [0] from rfl,
        List.map_cons, List.map_nil, List.cons_append, List.nil_append]
      congr 2
      show (a + b).tdiv 2
        = (((2 : Nat) : Int) * a + (((0 : Nat) : Int) + 1) * (b - a)).tdiv ((2 : Nat) : Int)
      rw [show ((2 : Nat) : Int) * a + (((0 : Nat) : Int) + 1) * (b - a) = a + b by
        push_cast; ring]
      norm_cast

/-- C2 counterexample: on the two 16-bit samples `[100, 200]` (bytes
`[100, 0, 200, 0]`) the code's agent-to-room conversion produces the
ratio-2 interpolation `[100, 150, 200]`, not the ratio-3 result
`[100, 133, 166, 200]` the claim demands for a 16 kHz source — the code has
no ratio-3 path at all. -/
theorem C2_counterexample :
    convertToDiscordFormatE [100, 0, 200, 0]
      = Except.ok (pack16LE (monoToStereo [100, 150, 200]))
    ∧ upsampleSpecK 3 [100, 200] = [100, 133, 166, 200]
    ∧ ([100, 150, 200] : List Int) ≠ [100, 133, 166, 200] :=
  ⟨rfl, by decide, by decide⟩

/-- C2 as amended: the agent-to-room conversion always inserts exactly one
linearly interpolated sample between each adjacent pair (ratio `k = 2`,
hardcoded for the 24 kHz source; a 16 kHz source takes the same path), then
duplicates every sample into both channels and re-encodes little-endian; in
particular `[100, 200]` yields `[100, 150, 200]` before stereo duplication,
with truncating integer interpolation. -/
theorem C2_ratio2_upsampling (audio : List Nat) (h : audio.length % 2 = 0) :
    convertToDiscordFormatE audio
      = Except.ok (pack16LE (monoToStereo (upsampleSpecK 2 (decodeSamples audio))))
    ∧ upsampleSpecK 2 [100, 200] = [100, 150, 200] := by
  refine ⟨?_, by decide⟩
  unfold convertToDiscordFormatE structUnpack16LE
  by_cases h0 : audio.length = 0
  · rw [if_pos h0]
    rw [List.length_eq_zero.mp h0]
    rfl
  · rw [if_neg h0]
    rw [if_pos (by omega)]
    dsimp only
    rw [upsample2x_eq_specK2]

/-- Witness for C2 as amended at the concrete byte input `[100, 0, 200, 0]`. -/
theorem C2_ratio2_upsampling_witness :
    convertToDiscordFormatE [100, 0, 200, 0]
      = Except.ok (pack16LE (monoToStereo
          (upsampleSpecK 2 (decodeSamples [100, 0, 200, 0]))))
    ∧ upsampleSpecK 2 [100, 200] = [100, 150, 200] :=
  C2_ratio2_upsampling [100, 0, 200, 0] rfl

theorem decodeSamples_replicate (m : Nat) :
    decodeSamples (List.replicate (2 * m) 0) = List.replicate m 0 := by
  induction m with
  | zero => rfl
  | succ k ih =>
      rw [show 2 * (k + 1) = (2 * k) + 1 + 1 by omega]
      rw [List.replicate_succ, List.replicate_succ, List.replicate_succ]
      simp only [decodeSamples, ih, toSigned16]
      norm_num

theorem pack16LE_replicate (m : Nat) :
    pack16LE (List.replicate m (0 : Int)) = List.replicate (2 * m) 0 := by
  induction m with
  | zero => rfl
  | succ k ih =>
      rw [List.replicate_succ, pack16LE, ih]
      rw [show 2 * (k + 1) = (2 * k) + 1 + 1 by omega]
      rw [List.replicate_succ, List.replicate_succ]
      rfl

theorem stereoToMono_replicate (m : Nat) :
    stereoToMono (List.replicate (2 * m) (0 : Int)) = List.replicate m 0 := by
  induction m with
  | zero => rfl
  | succ k ih =>
      rw [show 2 * (k + 1) = (2 * k) + 1 + 1 by omega]
      rw [List.replicate_succ, List.replicate_succ, List.replicate_succ]
      show Int.fdiv (0 + 0) 2 :: stereoToMono (List.replicate (2 * k) 0)
        = 0 :: List.replicate k 0
      rw [ih, show Int.fdiv (0 + 0) 2 = 0 from rfl]

theorem decimate3_replicate (m : Nat) :
    decimate3 (List.replicate m (0 : Int)) = List.replicate ((m + 2) / 3) 0 := by
  induction m using Nat.strong_induction_on with
  | _ m ih =>
      match m with
      | 0 => simp [decimate3]
      | Nat.succ k =>
          rw [List.replicate_succ]
          simp only [decimate3, List.drop_replicate]
          rw [ih (k - 2) (by omega)]
          rw [show (k + 1 + 2) / 3 = (k - 2 + 2) / 3 + 1 by omega]
          rw [List.replicate_succ]

theorem upsample2x_replicate (m : Nat) :
    upsample2x (List.replicate (m + 1) (0 : Int)) = List.replicate (2 * m + 1) 0 := by
  induction m with
  | zero => rfl
  | succ k ih =>
      rw [List.replicate_succ, List.replicate_succ]
      show (0 : Int) :: Int.tdiv (0 + 0) 2 :: upsample2x (0 :: List.replicate k 0)
        = List.replicate (2 * (k + 1) + 1) 0
      rw [← List.replicate_succ, ih, show Int.tdiv (0 + 0) 2 = 0 from rfl]
      rw [show 2 * (k + 1) + 1 = (2 * k + 1) + 1 + 1 by omega]
      conv_rhs => rw [List.replicate_succ, List.replicate_succ]

theorem monoToStereo_replicate (m : Nat) :
    monoToStereo (List.replicate m (0 : Int)) = List.replicate (2 * m) 0 := by
  induction m with
  | zero => rfl
  | succ k ih =>
      rw [List.replicate_succ, monoToStereo, ih]
      rw [show 2 * (k + 1) = (2 * k) + 1 + 1 by omega]
      rw [List.replicate_succ, List.replicate_succ]

theorem convertGemini_silence (n : Nat) :
    convertToGeminiFormatE (List.replicate (4 * n) 0)
      = Except.ok (List.replicate (2 * ((n + 2) / 3)) 0) := by
  rcases n with _ | k
  · rfl
  · unfold convertToGeminiFormatE structUnpack16LE
    rw [if_neg (by simp only [List.length_replicate]; omega)]
    rw [if_pos (by simp only [List.length_replicate]; omega)]
    dsimp only
    rw [show 4 * (k + 1) = 2 * (2 * (k + 1)) by ring]
    rw [decodeSamples_replicate, stereoToMono_replicate, decimate3_replicate,
      pack16LE_replicate]

theorem convertDiscord_silence (m : Nat) (h : 1 ≤ m) :
    convertToDiscordFormatE (List.replicate (2 * m) 0)
      = Except.ok (List.replicate (8 * m - 4) 0) := by
  obtain ⟨j, rfl⟩ : ∃ j, m = j + 1 := ⟨m - 1, by omega⟩
  unfold convertToDiscordFormatE structUnpack16LE
  rw [if_neg (by simp only [List.length_replicate]; omega)]
  rw [if_pos (by simp only [List.length_replicate]; omega)]
  dsimp only
  rw [decodeSamples_replicate, upsample2x_replicate, monoToStereo_replicate,
    pack16LE_replicate]
  rw [show 2 * (2 * (2 * j + 1)) = 8 * (j + 1) - 4 by omega]

/-- C4 counterexample: round-tripping a 48-byte silence buffer through the
room-to-agent and agent-to-room conversions yields 28 bytes, which differs
from 48 by 20 bytes — far more than one 4-byte sample-frame — because the
code decimates by 3 but upsamples only by 2. -/
theorem C4_counterexample :
    roundTrip (List.replicate 48 0) = Except.ok (List.replicate 28 0)
    ∧ 4 < 48 - (List.replicate 28 (0 : Nat)).length := by
  constructor
  · unfold roundTrip
    rw [show (48 : Nat) = 4 * 12 by norm_num, convertGemini_silence 12]
    dsimp only
    rw [show 2 * ((12 + 2) / 3) = 2 * 4 by norm_num]
    rw [convertDiscord_silence 4 (by omega)]
  · simp

/-- C4 as amended: round-tripping an all-zero room-format buffer of
`S = 4 * n` bytes (`n ≥ 1` stereo frames) yields an all-zero buffer of
`8 * ⌈n / 3⌉ - 4` bytes — roughly `2 * S / 3`, not `S` to within one
sample-frame; the all-zero content part of the claim holds. -/
theorem C4_roundtrip_silence (n : Nat) (h : 1 ≤ n) :
    roundTrip (List.replicate (4 * n) 0)
      = Except.ok (List.replicate (8 * ((n + 2) / 3) - 4) 0) := by
  unfold roundTrip
  rw [convertGemini_silence n]
  exact convertDiscord_silence ((n + 2) / 3) (by omega)

/-- Witness for C4 as amended at `n = 12` (a 48-byte silence buffer). -/
theorem C4_roundtrip_silence_witness :
    roundTrip (List.replicate (4 * 12) 0)
      = Except.ok (List.replicate (8 * ((12 + 2) / 3) - 4) 0) :=
  C4_roundtrip_silence 12 (by omega)

/-- Witness for C9 as amended at concrete client states. -/
theorem C9_disconnect_fire_counts_witness :
    (receiveLoopExit LoopExit.remoteClose ⟨true, true, true, 0⟩).disconnectedFires = 1
    ∧ (WSClient.disconnect ⟨true, true, true, 0⟩).disconnectedFires = 2
    ∧ (WSClient.disconnect ⟨false, false, false, 1⟩).disconnectedFires = 2 :=
  ⟨(C9_disconnect_fire_counts ⟨true, true, true, 0⟩ LoopExit.remoteClose rfl).1,
   (C9_disconnect_fire_counts ⟨true, true, true, 0⟩ LoopExit.remoteClose rfl).2.1,
   (C9_disconnect_fire_counts ⟨true, true, true, 0⟩ LoopExit.remoteClose rfl).2.2
      ⟨false, false, false, 1⟩ rfl⟩

theorem lookupConn_eq_of_connections_eq (s1 s2 : BotState) (g : Nat)
    (h : s1.voiceConnections = s2.voiceConnections) :
    lookupConn s1 g = lookupConn s2 g := by
  unfold lookupConn
  rw [h]

theorem handleUserJoin_same_channel (s : BotState) (member ch g : Nat)
    (h : lookupConn s g = some ch) :
    (handleUserJoin s member ch g).1.voiceConnections = s.voiceConnections
    ∧ (handleUserJoin s member ch g).1.activeConversations = s.activeConversations
    ∧ (s.greetedUsers.contains member = true →
        handleUserJoin s member ch g = (s, false))
    ∧ (s.greetingEnabled = true → s.activeConversations.contains g = true →
        (handleUserJoin s member ch g).1.greetedUsers.contains member = true) := by
  unfold handleUserJoin
  rw [h]
  dsimp only
  rw [if_pos rfl]
  by_cases hg : (s.greetingEnabled && !(s.greetedUsers.contains member)) = true
  · rw [if_pos hg]
    have hm : s.greetedUsers.contains member = false := by
      revert hg
      cases s.greetedUsers.contains member <;> simp
    unfold greetUser
    by_cases ha : s.activeConversations.contains g = true
    · rw [if_pos ha]
      dsimp only
      rw [hm]
      refine ⟨rfl, rfl, ?_, ?_⟩
      · intro hc
        exact absurd hc (by decide)
      · intro _ _
        simp
    · rw [if_neg ha]
      refine ⟨rfl, rfl, fun _ => rfl, ?_⟩
      intro _ hA
      exact absurd hA ha
  · rw [if_neg hg]
    refine ⟨rfl, rfl, fun _ => rfl, ?_⟩
    intro hEn hA
    dsimp only
    revert hg
    rw [hEn]
    cases hmem : s.greetedUsers.contains member <;> simp

/-- C7: a join issued for a guild where the bot is already connected to the
same channel creates no new voice connection, no new agent and no new
registry entry; its only possible effect is to greet the joining member,
and when the member was already greeted it is a complete no-op that sends
no greeting. -/
theorem C7_no_duplicate_session (s : BotState) (member ch g : Nat)
    (h : lookupConn s g = some ch) :
    (handleUserJoin s member ch g).1.voiceConnections = s.voiceConnections
    ∧ (handleUserJoin s member ch g).1.activeConversations = s.activeConversations
    ∧ (s.greetedUsers.contains member = true →
        handleUserJoin s member ch g = (s, false)) :=
  ⟨(handleUserJoin_same_channel s member ch g h).1,
   (handleUserJoin_same_channel s member ch g h).2.1,
   (handleUserJoin_same_channel s member ch g h).2.2.1⟩

/-- Witness for C7 at a concrete state already connected to channel 9 of
guild 5 with member 1 already greeted. -/
theorem C7_no_duplicate_session_witness :
    (handleUserJoin ⟨[(5, 9)], [5], [1], true⟩ 1 9 5).1.voiceConnections = [(5, 9)]
    ∧ handleUserJoin ⟨[(5, 9)], [5], [1], true⟩ 1 9 5
        = (⟨[(5, 9)], [5], [1], true⟩, false) :=
  ⟨(C7_no_duplicate_session ⟨[(5, 9)], [5], [1], true⟩ 1 9 5 rfl).1,
   (C7_no_duplicate_session ⟨[(5, 9)], [5], [1], true⟩ 1 9 5 rfl).2.2 rfl⟩

/-- C8 counterexample: a session teardown caused by the last participant
(member 1) leaving guild 5 removes only that member from the greeted set:
member 2, greeted in the same session, survives the session end, so the set
is not cleared entirely. -/
theorem C8_counterexample :
    (handleUserLeave ⟨[(5, 9)], [5], [1, 2], true⟩ 1 5 true).greetedUsers = [2]
    ∧ (handleUserLeave ⟨[(5, 9)], [5], [1, 2], true⟩ 1 5 true).activeConversations = []
    ∧ (handleUserLeave ⟨[(5, 9)], [5], [1, 2], true⟩ 1 5 true).voiceConnections = []
    ∧ ([2] : List Nat) ≠ [] := by
  refine ⟨?_, ?_, ?_, by decide⟩ <;> rfl

/-- C8 as amended: when a participant leaves a voice channel exactly that
participant's entry is removed from the greeted set (whether or not the
session is torn down), every other entry is preserved, and the session
teardown itself (`_leave_voice_channel`) never touches the greeted set —
the set is never cleared entirely. -/
theorem C8_greeted_removed_on_leave (s : BotState) (member g x : Nat) (e : Bool)
    (hx : x ≠ member) :
    member ∉ (handleUserLeave s member g e).greetedUsers
    ∧ (x ∈ (handleUserLeave s member g e).greetedUsers ↔ x ∈ s.greetedUsers)
    ∧ (leaveVoiceChannel s g).greetedUsers = s.greetedUsers := by
  unfold handleUserLeave leaveVoiceChannel
  cases e <;>
    simp [List.mem_filter, hx]

/-- Witness for C8 as amended at the concrete teardown state. -/
theorem C8_greeted_removed_on_leave_witness :
    1 ∉ (handleUserLeave ⟨[(5, 9)], [5], [1, 2], true⟩ 1 5 true).greetedUsers
    ∧ (2 ∈ (handleUserLeave ⟨[(5, 9)], [5], [1, 2], true⟩ 1 5 true).greetedUsers
        ↔ 2 ∈ ([1, 2] : List Nat)) :=
  ⟨(C8_greeted_removed_on_leave ⟨[(5, 9)], [5], [1, 2], true⟩ 1 5 2 true
      (by decide)).1,
   (C8_greeted_removed_on_leave ⟨[(5, 9)], [5], [1, 2], true⟩ 1 5 2 true
      (by decide)).2.1⟩

/-- C10: the greeted set is one process-wide set keyed only by member id:
after a member is greeted through a join into guild `gA`'s active
same-channel session, a later join by the same member into a different
guild `gB`'s already-active channel sends no greeting and changes nothing,
although `gB`'s session never greeted them. -/
theorem C10_greeted_set_process_wide (s0 : BotState) (member chA chB gA gB : Nat)
    (hne : gA ≠ gB)
    (hA : lookupConn s0 gA = some chA)
    (hAct : s0.activeConversations.contains gA = true)
    (hEn : s0.greetingEnabled = true)
    (hB : lookupConn s0 gB = some chB) :
    (handleUserJoin s0 member chA gA).1.greetedUsers.contains member = true
    ∧ handleUserJoin (handleUserJoin s0 member chA gA).1 member chB gB
        = ((handleUserJoin s0 member chA gA).1, false) := by
  have h1 := handleUserJoin_same_channel s0 member chA gA hA
  have hmem : (handleUserJoin s0 member chA gA).1.greetedUsers.contains member = true :=
    h1.2.2.2 hEn hAct
  refine ⟨hmem, ?_⟩
  have hB1 : lookupConn (handleUserJoin s0 member chA gA).1 gB = some chB := by
    rw [lookupConn_eq_of_connections_eq (handleUserJoin s0 member chA gA).1 s0 gB h1.1]
    exact hB
  exact (handleUserJoin_same_channel
    (handleUserJoin s0 member chA gA).1 member chB gB hB1).2.2.1 hmem

/-- Witness for C10 at a concrete state with two active guilds 5 and 6 and
member 1 not yet greeted anywhere. -/
theorem C10_greeted_set_process_wide_witness :
    (handleUserJoin ⟨[(5, 50), (6, 60)], [5, 6], [], true⟩ 1 50 5).1.greetedUsers.contains 1
      = true
    ∧ handleUserJoin
        (handleUserJoin ⟨[(5, 50), (6, 60)], [5, 6], [], true⟩ 1 50 5).1 1 60 6
      = ((handleUserJoin ⟨[(5, 50), (6, 60)], [5, 6], [], true⟩ 1 50 5).1, false) :=
  ⟨(C10_greeted_set_process_wide ⟨[(5, 50), (6, 60)], [5, 6], [], true⟩ 1 50 60 5 6
      (by decide) rfl rfl rfl rfl).1,
   (C10_greeted_set_process_wide ⟨[(5, 50), (6, 60)], [5, 6], [], true⟩ 1 50 60 5 6
      (by decide) rfl rfl rfl rfl).2⟩

end AgentSpeak
